import Mathlib

/-!
# Verification of the EC2 sandbox broker against its specification

This development embeds the core of the `Sandbox-on-EC2` repository
(`ec2_sandbox/utils.py`, `ec2_sandbox/core.py`, `ec2_sandbox/sandbox.py`,
`strands_tools.py`, `ec2_sandbox/strands_tools.py`) as executable Lean
definitions and proves properties of them.

Modelling conventions:
* Python strings are Lean `String`s; all string manipulation is done on the
  underlying `List Char` with explicit helpers, so every definition reduces
  in the kernel.
* The AWS SSM management channel is an oracle `Channel : String → Except String
  RemoteResult`: `.ok r` stands for a completed `send_command`/waiter/
  `get_command_invocation` round trip yielding the four extracted fields, and
  `.error e` stands for any exception raised by the channel layer (`str(e) = e`).
* Wall-clock values (`int(time.time())`, the hour bucket
  `int(time.time() // 3600)`) are explicit `Nat` parameters.
* Fallible Python code (raising `ValueError` / `RuntimeError`) is embedded with
  `Except String`.
* `ExecutionResult.execution_time` (a wall-clock float) is not modelled.
-/

set_option maxRecDepth 20000

namespace EC2Sandbox

/-! ## String and byte helpers -/

/-- UTF-8 encoding of a single Unicode code point, as a list of byte values. -/
def utf8EncodeCodePoint (n : Nat) : List Nat :=
  if n < 0x80 then [n]
  else if n < 0x800 then
    [0xC0 ||| (n >>> 6), 0x80 ||| (n &&& 0x3F)]
  else if n < 0x10000 then
    [0xE0 ||| (n >>> 12), 0x80 ||| ((n >>> 6) &&& 0x3F), 0x80 ||| (n &&& 0x3F)]
  else
    [0xF0 ||| (n >>> 18), 0x80 ||| ((n >>> 12) &&& 0x3F),
     0x80 ||| ((n >>> 6) &&& 0x3F), 0x80 ||| (n &&& 0x3F)]

/-- The UTF-8 bytes of a string (Python's `s.encode('utf-8')`). -/
def strBytes (s : String) : List Nat :=
  s.data.flatMap (fun c => utf8EncodeCodePoint c.toNat)

/-- Whether `sub` occurs as a contiguous run inside `l` (Python's `sub in s`). -/
def listContainsSub (sub : List Char) : List Char → Bool
  | [] => sub.isEmpty
  | c :: t => sub.isPrefixOf (c :: t) || listContainsSub sub t

/-- Python's `sub in s` for strings. -/
def strContainsB (s sub : String) : Bool := listContainsSub sub.data s.data

/-- Python's `s.startswith(pre)`. -/
def strStartsWith (s pre : String) : Bool := pre.data.isPrefixOf s.data

/-- The first `n` characters of `s` (Python's `s[:n]`). -/
def strTake (s : String) (n : Nat) : String := String.mk (s.data.take n)

/-- Python's ASCII whitespace for `str.strip` / `str.split`. -/
def isPySpace (c : Char) : Bool :=
  c = ' ' || c = '\t' || c = '\n' || c = '\r' || c.toNat = 11 || c.toNat = 12

/-- Python's `s.strip()`. -/
def pyStrip (s : String) : String :=
  String.mk (((s.data.dropWhile isPySpace).reverse.dropWhile isPySpace).reverse)

/-- Python's no-argument `s.split()`: split on whitespace runs, dropping empties. -/
def pySplitWs (s : String) : List String :=
  ((s.data.splitOnP isPySpace).filter (fun l => l ≠ [])).map String.mk

/-- Fuel-based worker for `splitChars`. -/
def splitCharsFuel (sep : List Char) : Nat → List Char → List (List Char)
  | 0, l => [l]
  | fuel + 1, l =>
    if sep.isPrefixOf l ∧ sep ≠ [] then
      match splitCharsFuel sep fuel (l.drop sep.length) with
      | chunks => [] :: chunks
    else
      match l with
      | [] => [[]]
      | c :: t =>
        match splitCharsFuel sep fuel t with
        | [] => [[c]]
        | chunk :: rest => (c :: chunk) :: rest

/-- Python's `s.split(sep)` for a nonempty separator. -/
def pySplit (s sep : String) : List String :=
  (splitCharsFuel sep.data (s.data.length + 1) s.data).map String.mk

/-- Python's `sep.join(parts)`. -/
def strJoin (sep : String) (parts : List String) : String :=
  String.mk (List.intercalate sep.data (parts.map String.data))

/-- Parse Python `int(s)` on an already-stripped string: optional sign, digits. -/
def pyInt (s : String) : Option Int :=
  let digitsVal : List Char → Option Nat := fun l =>
    if l ≠ [] ∧ l.all Char.isDigit then
      some (l.foldl (fun a c => a * 10 + (c.toNat - 48)) 0)
    else none
  match s.data with
  | '-' :: rest => (digitsVal rest).map (fun n => -(n : Int))
  | '+' :: rest => (digitsVal rest).map (fun n => (n : Int))
  | l => (digitsVal l).map (fun n => (n : Int))

/-- Python f-string rendering of a list of strings (`f"{['a', 'b']}"`). -/
def pyStrListRepr (l : List String) : String :=
  "[" ++ strJoin ", " (l.map (fun s => "'" ++ s ++ "'")) ++ "]"

/-- `os.path.basename`. -/
def path_basename (p : String) : String := (pySplit p "/").getLastD ""

/-- `os.path.dirname`. -/
def path_dirname (p : String) : String :=
  match pySplit p "/" with
  | [] => ""
  | [_] => ""
  | parts => strJoin "/" parts.dropLast

/-! ## SHA-256 over `Nat` with explicit reduction modulo 2^32 -/

def M32 : Nat := 4294967296

def add32 (a b : Nat) : Nat := (a + b) % M32

def rotr32 (n x : Nat) : Nat := ((x >>> n) ||| (x <<< (32 - n))) % M32

def sha256K : List Nat :=
  [1116352408, 1899447441, 3049323471, 3921009573, 961987163, 1508970993,
   2453635748, 2870763221, 3624381080, 310598401, 607225278, 1426881987,
   1925078388, 2162078206, 2614888103, 3248222580, 3835390401, 4022224774,
   264347078, 604807628, 770255983, 1249150122, 1555081692, 1996064986,
   2554220882, 2821834349, 2952996808, 3210313671, 3336571891, 3584528711,
   113926993, 338241895, 666307205, 773529912, 1294757372, 1396182291,
   1695183700, 1986661051, 2177026350, 2456956037, 2730485921, 2820302411,
   3259730800, 3345764771, 3516065817, 3600352804, 4094571909, 275423344,
   430227734, 506948616, 659060556, 883997877, 958139571, 1322822218,
   1537002063, 1747873779, 1955562222, 2024104815, 2227730452, 2361852424,
   2428436474, 2756734187, 3204031479, 3329325298]

def sha256H0 : List Nat :=
  [1779033703, 3144134277, 1013904242, 2773480762, 1359893119, 2600822924,
   528734635, 1541459225]

def smallSigma0 (x : Nat) : Nat := (rotr32 7 x) ^^^ (rotr32 18 x) ^^^ (x >>> 3)
def smallSigma1 (x : Nat) : Nat := (rotr32 17 x) ^^^ (rotr32 19 x) ^^^ (x >>> 10)
def bigSigma0 (x : Nat) : Nat := (rotr32 2 x) ^^^ (rotr32 13 x) ^^^ (rotr32 22 x)
def bigSigma1 (x : Nat) : Nat := (rotr32 6 x) ^^^ (rotr32 11 x) ^^^ (rotr32 25 x)
def chFn (x y z : Nat) : Nat := (x &&& y) ^^^ ((x ^^^ (M32 - 1)) &&& z)
def majFn (x y z : Nat) : Nat := (x &&& y) ^^^ (x &&& z) ^^^ (y &&& z)

/-- Big-endian byte rendering of `n`, `k` bytes wide. -/
def toBytesBE (k n : Nat) : List Nat :=
  match k with
  | 0 => []
  | k + 1 => toBytesBE k (n >>> 8) ++ [n % 256]

/-- SHA-256 padding: append 0x80, zero bytes, and the 64-bit big-endian bit length. -/
def sha256Pad (msg : List Nat) : List Nat :=
  let len := msg.length
  let padZeros := (64 + 55 - (len % 64)) % 64
  msg ++ [0x80] ++ List.replicate padZeros 0 ++ toBytesBE 8 (len * 8)

/-- Group a byte list into 32-bit big-endian words. -/
def bytesToWords : List Nat → List Nat
  | b0 :: b1 :: b2 :: b3 :: rest =>
      (((b0 * 256 + b1) * 256 + b2) * 256 + b3) :: bytesToWords rest
  | _ => []

/-- Extend the 16-word message schedule by `n` further words. -/
def extendSchedule : Nat → List Nat → List Nat
  | 0, w => w
  | n + 1, w =>
      let t := add32 (add32 (smallSigma1 (w.getD (w.length - 2) 0)) (w.getD (w.length - 7) 0))
                     (add32 (smallSigma0 (w.getD (w.length - 15) 0)) (w.getD (w.length - 16) 0))
      extendSchedule n (w ++ [t])

/-- One round of the SHA-256 compression function. -/
def sha256Round (st : Nat × Nat × Nat × Nat × Nat × Nat × Nat × Nat) (kw : Nat × Nat) :
    Nat × Nat × Nat × Nat × Nat × Nat × Nat × Nat :=
  let (a, b, c, d, e, f, g, h) := st
  let t1 := add32 h (add32 (bigSigma1 e) (add32 (chFn e f g) (add32 kw.1 kw.2)))
  let t2 := add32 (bigSigma0 a) (majFn a b c)
  (add32 t1 t2, a, b, c, add32 d t1, e, f, g)

/-- Process one 64-byte block, updating the 8-word chaining state. -/
def sha256Block (h : List Nat) (block : List Nat) : List Nat :=
  let w := extendSchedule 48 (bytesToWords block)
  let init := (h.getD 0 0, h.getD 1 0, h.getD 2 0, h.getD 3 0,
               h.getD 4 0, h.getD 5 0, h.getD 6 0, h.getD 7 0)
  match (sha256K.zip w).foldl sha256Round init with
  | (a, b, c, d, e, f, g, hh) =>
      [add32 (h.getD 0 0) a, add32 (h.getD 1 0) b, add32 (h.getD 2 0) c, add32 (h.getD 3 0) d,
       add32 (h.getD 4 0) e, add32 (h.getD 5 0) f, add32 (h.getD 6 0) g, add32 (h.getD 7 0) hh]

/-- Split a list into chunks of 64 elements (fuel-based so it reduces in the kernel). -/
def chunks64Fuel : Nat → List Nat → List (List Nat)
  | 0, _ => []
  | _, [] => []
  | fuel + 1, a :: t => (a :: t.take 63) :: chunks64Fuel fuel (t.drop 63)

/-- Split a list into chunks of 64 elements. -/
def chunks64 (l : List Nat) : List (List Nat) := chunks64Fuel l.length l

/-- Lowercase hexadecimal digit. -/
def hexDigit (n : Nat) : Char :=
  if n < 10 then Char.ofNat (48 + n) else Char.ofNat (87 + n)

/-- Lowercase hexadecimal rendering of a 32-bit word, 8 digits. -/
def wordToHex (n : Nat) : List Char :=
  [hexDigit ((n >>> 28) % 16), hexDigit ((n >>> 24) % 16), hexDigit ((n >>> 20) % 16),
   hexDigit ((n >>> 16) % 16), hexDigit ((n >>> 12) % 16), hexDigit ((n >>> 8) % 16),
   hexDigit ((n >>> 4) % 16), hexDigit (n % 16)]

/-- SHA-256 of a byte list, as a 64-character lowercase hex string
(Python's `hashlib.sha256(b).hexdigest()`). -/
def sha256Hex (msg : List Nat) : String :=
  let final := (chunks64 (sha256Pad msg)).foldl sha256Block sha256H0
  String.mk (final.flatMap wordToHex)

/-! ## Base64 (Python's `base64.b64encode`, standard alphabet) -/

def b64Char (n : Nat) : Char :=
  if n < 26 then Char.ofNat (65 + n)
  else if n < 52 then Char.ofNat (97 + (n - 26))
  else if n < 62 then Char.ofNat (48 + (n - 52))
  else if n = 62 then '+' else '/'

def base64Chunks : List Nat → List Char
  | [] => []
  | [b0] => [b64Char (b0 >>> 2), b64Char ((b0 &&& 3) <<< 4), '=', '=']
  | [b0, b1] => [b64Char (b0 >>> 2), b64Char (((b0 &&& 3) <<< 4) ||| (b1 >>> 4)),
                 b64Char ((b1 &&& 15) <<< 2), '=']
  | b0 :: b1 :: b2 :: rest =>
      b64Char (b0 >>> 2) :: b64Char (((b0 &&& 3) <<< 4) ||| (b1 >>> 4)) ::
      b64Char (((b1 &&& 15) <<< 2) ||| (b2 >>> 6)) :: b64Char (b2 &&& 63) :: base64Chunks rest

/-- `base64.b64encode(bytes).decode('ascii')`. -/
def base64Encode (bytes : List Nat) : String := String.mk (base64Chunks bytes)

/-! ## Canonical JSON used by the task fingerprint (`json.dumps(..., sort_keys=True)`) -/

/-- Four lowercase hex digits. -/
def u4hex (n : Nat) : List Char :=
  [hexDigit ((n >>> 12) % 16), hexDigit ((n >>> 8) % 16), hexDigit ((n >>> 4) % 16),
   hexDigit (n % 16)]

/-- How Python's `json.dumps` (default `ensure_ascii=True`) escapes one character
inside a string literal. -/
def jsonEscapeChar (c : Char) : List Char :=
  let n := c.toNat
  if c = '"' then ['\\', '"']
  else if c = '\\' then ['\\', '\\']
  else if n = 8 then ['\\', 'b']
  else if n = 9 then ['\\', 't']
  else if n = 10 then ['\\', 'n']
  else if n = 12 then ['\\', 'f']
  else if n = 13 then ['\\', 'r']
  else if n < 0x20 ∨ n > 0x7e then
    if n < 0x10000 then '\\' :: 'u' :: u4hex n
    else
      let m := n - 0x10000
      ('\\' :: 'u' :: u4hex (0xd800 + (m >>> 10))) ++ ('\\' :: 'u' :: u4hex (0xdc00 + (m &&& 0x3ff)))
  else [c]

/-- A JSON string literal as rendered by `json.dumps`. -/
def jsonStr (s : String) : String :=
  String.mk ('"' :: (s.data.flatMap jsonEscapeChar ++ ['"']))

/-- `json.dumps(hash_data, sort_keys=True)` for the dict built by
`generate_task_hash`: keys `code`, `runtime`, `session_id`, `timestamp` (already
in sorted order), default separators. -/
def task_hash_string (code runtime session_id : String) (hour : Nat) : String :=
  "\x7b\"code\": " ++ jsonStr code ++ ", \"runtime\": " ++ jsonStr runtime ++
  ", \"session_id\": " ++ jsonStr session_id ++ ", \"timestamp\": " ++ toString hour ++ "\x7d"

/-! ## `ec2_sandbox/utils.py` -/

/-- Embeds `utils.generate_task_hash`, applied to the `task_data` dict that
`SandboxInstance.execute_code` builds (`code`, `runtime`, `session_id`); the
function itself adds `timestamp = int(time.time() // 3600)`, passed here as
`hour`. Returns the first 16 hex characters of the SHA-256 of the canonical
JSON rendering. -/
def generate_task_hash (code runtime session_id : String) (hour : Nat) : String :=
  strTake (sha256Hex (strBytes (task_hash_string code runtime session_id hour))) 16

/-- The character class `[a-zA-Z0-9._-]` of `is_safe_filename`'s final regex. -/
def safe_name_char (c : Char) : Bool :=
  decide (('a' ≤ c ∧ c ≤ 'z') ∨ ('A' ≤ c ∧ c ≤ 'Z') ∨ ('0' ≤ c ∧ c ≤ '9') ∨
          c = '.' ∨ c = '_' ∨ c = '-')

/-- `re.match(r'^[a-zA-Z0-9._-]+$', filename)` viewed as a Boolean. (`$` would
also accept one trailing newline, but a newline is a control character and is
already rejected by the control-character check before this regex runs.) -/
def matches_safe_name (filename : String) : Bool :=
  !filename.data.isEmpty && filename.data.all safe_name_char

/-- Shell metacharacters rejected by `is_safe_filename` (`r'[|&;$`<>]'`). -/
def shell_meta_chars : List Char := ['|', '&', ';', '$', '`', '<', '>']

/-- Windows reserved device names checked by `is_safe_filename`. -/
def reserved_device_names : List String :=
  ["CON", "PRN", "AUX", "NUL"] ++
  ((List.range 9).map (fun i => "COM" ++ toString (i + 1))) ++
  ((List.range 9).map (fun i => "LPT" ++ toString (i + 1)))

/-- Python `str.upper` (ASCII letters; non-ASCII case mapping differences
cannot change any of the checks this is used for). -/
def pyUpper (s : String) : String := String.mk (s.data.map Char.toUpper)

/-- Embeds `utils.is_safe_filename`. The dangerous patterns `r'\.\./+'` and
`r'\.\.\\+'` match exactly when the name contains `../` or `..\`
(two dots followed by at least one slash or backslash). -/
def is_safe_filename (filename : String) : Bool :=
  if filename.data.length > 255 then false
  else if strContainsB filename "../" then false
  else if strContainsB filename "..\\" then false
  else if strStartsWith filename "/" then false
  else if strStartsWith filename "\\" then false
  else if filename.data.any (fun c => shell_meta_chars.contains c) then false
  else if filename.data.any (fun c => c.toNat ≤ 0x1f) then false
  else if reserved_device_names.contains ((pySplit (pyUpper filename) ".").headD "") then false
  else matches_safe_name filename

/-- Characters escaped in environment-variable values by `sanitize_env_var`,
in the order the source iterates over them. -/
def dangerous_value_chars : List Char :=
  ['`', '$', '\\', '"', '\'', ';', '&', '|', '<', '>']

/-- Python `value.replace(t, '\\' + t)` for a single character `t` (the source
guards the call with `if char in value`, which does not change the result). -/
def py_replace_char (v : String) (t : Char) : String :=
  String.mk (v.data.flatMap (fun c => if c = t then ['\\', t] else [c]))

/-- The value transformation of `sanitize_env_var`: escape each dangerous
character in turn, in source order. -/
def sanitize_value (v : String) : String :=
  dangerous_value_chars.foldl py_replace_char v

/-- `re.match(r'^[A-Za-z_][A-Za-z0-9_]*$', key)` viewed as a Boolean. -/
def env_key_ok (k : String) : Bool :=
  match k.data with
  | [] => false
  | c :: rest =>
      decide (('A' ≤ c ∧ c ≤ 'Z') ∨ ('a' ≤ c ∧ c ≤ 'z') ∨ c = '_') &&
      rest.all (fun d =>
        decide (('A' ≤ d ∧ d ≤ 'Z') ∨ ('a' ≤ d ∧ d ≤ 'z') ∨ ('0' ≤ d ∧ d ≤ '9') ∨ d = '_'))

/-- Embeds `utils.sanitize_env_var`; `.error` is the `ValueError` it raises on
a bad variable name. -/
def sanitize_env_var (key value : String) : Except String (String × String) :=
  if env_key_ok key then .ok (key, sanitize_value value)
  else .error ("Invalid environment variable name: " ++ key)

/-- Embeds `utils.parse_file_list`: scan the stripped section line by line,
keep `ls -la` rows (first column starting with `-` or `d`) with at least nine
whitespace-separated fields, take the name (fields 9 and on, re-joined on a
single space), and drop `.` and `..`. -/
def parse_file_list (file_section : String) : List String :=
  (pySplit (pyStrip file_section) "\n").foldl (fun files line =>
    if strStartsWith line "-" || strStartsWith line "d" then
      if (pySplitWs line).length ≥ 9 then
        if strJoin " " ((pySplitWs line).drop 8) ≠ "." ∧
           strJoin " " ((pySplitWs line).drop 8) ≠ ".." then
          files ++ [strJoin " " ((pySplitWs line).drop 8)]
        else files
      else files
    else files) []

/-! ## `ec2_sandbox/core.py` -/

/-- Embeds the `SandboxConfig` dataclass (fields that influence the modelled
behaviour; the credential fields do not). `allowed_runtimes = none` is Python's
`None` before `__post_init__` fills in the default list. -/
structure SandboxConfig where
  region : String
  instance_id : String
  base_sandbox_dir : String := "/opt/sandbox"
  max_execution_time : Nat := 300
  max_memory_mb : Nat := 1024
  cleanup_after_hours : Nat := 24
  allowed_runtimes : Option (List String) := none
deriving DecidableEq

/-- `__post_init__`: `allowed_runtimes` defaults to
`["python3", "python", "node", "bash", "sh"]` when `None`. -/
def SandboxConfig.effective_allowed_runtimes (cfg : SandboxConfig) : List String :=
  cfg.allowed_runtimes.getD ["python3", "python", "node", "bash", "sh"]

/-- The four fields `_execute_remote_command` extracts from a completed SSM
command invocation. -/
structure RemoteResult where
  stdout : String
  stderr : String
  status : String
  return_code : Int
deriving DecidableEq

/-- The management channel as an oracle: `.ok` is a completed
`send_command`/waiter/`get_command_invocation` round trip, `.error e` any
exception raised inside the `try` block, with `str(e) = e`. -/
def Channel : Type := String → Except String RemoteResult

/-- Embeds `EC2SandboxEnv._execute_remote_command`: prepend `cd` when a working
directory is given (Python truthiness: the empty string means none), dispatch,
and turn any channel exception into `{'', str(e), 'Failed', 1}` without
raising. -/
def execute_remote_command (ssm : Channel) (command : String)
    (working_dir : String := "") : RemoteResult :=
  let command := if working_dir ≠ "" then "cd " ++ working_dir ++ " && " ++ command else command
  match ssm command with
  | .ok r => r
  | .error e => { stdout := "", stderr := e, status := "Failed", return_code := 1 }

/-- The per-file provisioning commands of `_create_task_filesystem`: each
filename is checked with `is_safe_filename` in iteration order and the first
unsafe one raises `ValueError("Unsafe filename: ...")`; safe files become
`echo '<b64>' | base64 -d > '<name>'` commands. -/
def build_file_commands : List (String × String) → Except String (List String)
  | [] => .ok []
  | (filename, content) :: rest =>
    if is_safe_filename filename then
      match build_file_commands rest with
      | .ok cmds =>
          .ok (("echo '" ++ base64Encode (strBytes content) ++ "' | base64 -d > '" ++
                filename ++ "'") :: cmds)
      | .error e => .error e
    else .error ("Unsafe filename: " ++ filename)

/-- Embeds `EC2SandboxEnv._create_task_filesystem`. Returns the task directory
(or the raised error) together with the list of remote commands dispatched:
nothing is dispatched when a filename is unsafe, exactly one command otherwise.
A non-zero return code from the provisioning command raises `RuntimeError`. -/
def create_task_filesystem (ssm : Channel) (cfg : SandboxConfig) (task_hash : String)
    (files : Option (List (String × String))) : Except String String × List String :=
  let task_dir := cfg.base_sandbox_dir ++ "/" ++ task_hash
  let base_cmds := ["mkdir -p " ++ task_dir, "chmod 755 " ++ task_dir, "cd " ++ task_dir]
  match build_file_commands (files.getD []) with
  | .error e => (.error e, [])
  | .ok file_cmds =>
    let full_command := strJoin " && " (base_cmds ++ file_cmds)
    let result := execute_remote_command ssm full_command
    if result.return_code ≠ 0 then
      (.error ("Failed to create task filesystem: " ++ result.stderr), [full_command])
    else (.ok task_dir, [full_command])

/-- `hours or self.config.cleanup_after_hours` in `cleanup_old_tasks`: Python's
`or` takes the configured value when `hours` is `None` or the falsy `0`. -/
def cleanup_effective_hours (cfg : SandboxConfig) (hours : Option Nat) : Nat :=
  match hours with
  | some h => if h ≠ 0 then h else cfg.cleanup_after_hours
  | none => cfg.cleanup_after_hours

/-- The retention command built by `cleanup_old_tasks` (a triple-quoted
f-string; `cleanup_minutes = cleanup_hours * 60`). -/
def cleanup_command (cfg : SandboxConfig) (hours : Option Nat) : String :=
  let cleanup_minutes := cleanup_effective_hours cfg hours * 60
  "\n            find " ++ cfg.base_sandbox_dir ++ " -maxdepth 1 -type d -mmin +" ++
  toString cleanup_minutes ++ " ! -path " ++ cfg.base_sandbox_dir ++
  " -exec rm -rf \x7b\x7d + 2>/dev/null || true\n            "

/-- Embeds `EC2SandboxEnv.cleanup_old_tasks`: dispatch the retention command
(errors are swallowed); returns the dispatched command list. -/
def cleanup_old_tasks (ssm : Channel) (cfg : SandboxConfig) (hours : Option Nat) :
    List String :=
  let command := cleanup_command cfg hours
  let _ := execute_remote_command ssm command
  [command]

/-- Modelled from the spec: the effect on the instance of the dispatched
retention command (`find <base> -maxdepth 1 -type d -mmin +N ! -path <base>
-exec rm -rf ... +`, spec section 4.D `purge` and P5). The instance-side `find`
binary is an external collaborator, not code of this repository: a directory
directly under the base directory is removed exactly when its age in minutes
is strictly greater than `N`. Directories are `(name, age-in-minutes)` pairs. -/
def find_sweep (dirs : List (String × Nat)) (threshold_minutes : Nat) :
    List (String × Nat) :=
  dirs.filter (fun d => !(d.2 > threshold_minutes : Bool))

/-- The directories surviving `cleanup_old_tasks` under the `find_sweep`
model. -/
def cleanup_sweep (cfg : SandboxConfig) (hours : Option Nat)
    (dirs : List (String × Nat)) : List (String × Nat) :=
  find_sweep dirs (cleanup_effective_hours cfg hours * 60)

/-! ## `ec2_sandbox/sandbox.py` -/

/-- Embeds the `ExecutionResult` dataclass (`execution_time`, a wall-clock
float, is not modelled). -/
structure ExecutionResult where
  success : Bool
  stdout : String
  stderr : String
  return_code : Int
  working_directory : String
  files_created : List String
  task_hash : Option String := none
  error_message : Option String := none
  session_id : Option String := none
  task_count : Option Nat := none
deriving DecidableEq

/-- The failure result returned when the runtime is not allowed. -/
def runtime_fail_result (runtime : String) (allowed : List String) : ExecutionResult :=
  { success := false, stdout := "",
    stderr := "Runtime '" ++ runtime ++ "' not allowed. Allowed: " ++ pyStrListRepr allowed,
    return_code := 1, working_directory := "", files_created := [],
    task_hash := none, error_message := some ("Invalid runtime: " ++ runtime) }

/-- The result built by `execute_code`'s `except` branch (`self.task_hash` was
already assigned when the exception is raised). -/
def exception_result (e : String) (task_hash : Option String) : ExecutionResult :=
  { success := false, stdout := "", stderr := e, return_code := 1,
    working_directory := "", files_created := [], task_hash := task_hash,
    error_message := some e }

/-- The `ulimit` resource-limit commands of `execute_code`. -/
def ulimit_commands (cfg : SandboxConfig) : List String :=
  ["ulimit -t " ++ toString cfg.max_execution_time,
   "ulimit -v " ++ toString (cfg.max_memory_mb * 1024),
   "ulimit -f 100000",
   "ulimit -n 1024"]

/-- The runtime-specific part of the command list built by `execute_code`:
`python` and `node` write the base64-decoded code to `task_<hash>.py` /
`task_<hash>.js` and run it under `timeout`; `bash`/`sh` pipe the decoded code
straight into the interpreter; any other runtime (`python3` included) matches
no branch and contributes nothing. -/
def runtime_commands (cfg : SandboxConfig) (task_hash code runtime : String) :
    List String :=
  if runtime = "python" then
    let code_file := "task_" ++ task_hash ++ ".py"
    let encoded_code := base64Encode (strBytes code)
    ["set +e",
     "echo '" ++ encoded_code ++ "' | base64 -d > " ++ code_file,
     "echo '=== EXECUTION START ==='",
     "timeout " ++ toString cfg.max_execution_time ++ " " ++ runtime ++ " " ++ code_file ++
       "; exit_code=$?",
     "echo '=== EXECUTION END ==='",
     "echo \"EXIT_CODE: $exit_code\"",
     "echo '--- FILES_CREATED ---'",
     "ls -la 2>/dev/null || true"]
  else if runtime = "node" then
    let code_file := "task_" ++ task_hash ++ ".js"
    let encoded_code := base64Encode (strBytes code)
    ["set +e",
     "echo '" ++ encoded_code ++ "' | base64 -d > " ++ code_file,
     "echo '=== EXECUTION START ==='",
     "timeout " ++ toString cfg.max_execution_time ++ " node " ++ code_file ++ " 2>&1",
     "exit_code=$?",
     "echo '=== EXECUTION END ==='",
     "echo \"EXIT_CODE: $exit_code\"",
     "echo '--- FILES_CREATED ---'",
     "ls -la 2>/dev/null || true",
     "exit 0"]
  else if runtime = "bash" ∨ runtime = "sh" then
    ["echo '" ++ base64Encode (strBytes code) ++ "' | base64 -d | " ++ runtime]
  else []

/-- The `export` commands for the final environment variables; the
`ValueError` from `sanitize_env_var` propagates. -/
def export_commands : List (String × String) → Except String (List String)
  | [] => .ok []
  | (k, v) :: rest =>
    match sanitize_env_var k v with
    | .error e => .error e
    | .ok (sk, sv) =>
      match export_commands rest with
      | .ok cmds => .ok (("export " ++ sk ++ "='" ++ sv ++ "'") :: cmds)
      | .error e => .error e

/-- Python dict update `d[k] = v` on an association list with unique keys. -/
def dict_insert (d : List (String × String)) (k v : String) : List (String × String) :=
  if d.any (fun p => p.1 = k) then d.map (fun p => if p.1 = k then (k, v) else p)
  else d ++ [(k, v)]

/-- Python `{**a, **b}`. -/
def dict_merge (a b : List (String × String)) : List (String × String) :=
  b.foldl (fun d p => dict_insert d p.1 p.2) a

def EXEC_START_MARK : String := "=== EXECUTION START ==="
def EXEC_END_MARK : String := "=== EXECUTION END ==="
def FILES_CREATED_MARK : String := "--- FILES_CREATED ---"

/-- `str.find`: index of the first occurrence of `pat` in `s`. -/
def strFind (s pat : String) : Option Nat :=
  (List.range (s.data.length + 1)).find? (fun i => pat.data.isPrefixOf (s.data.drop i))

/-- The result-parsing tail of `execute_code` (sandbox.py lines 168-215),
applied to the `RemoteResult` of the execution command: extract the exit code
after `EXIT_CODE:` (absent or unparsable means `0` and success), slice the
output between the sentinels, and parse the file listing after the last
`--- FILES_CREATED ---` marker. -/
def parse_execution (result : RemoteResult) (working_dir task_hash : String) :
    ExecutionResult :=
  let stdout := result.stdout
  let parsed : Option Int :=
    if strContainsB stdout "EXIT_CODE:" then
      match (pySplit stdout "\n").filter (fun l => strContainsB l "EXIT_CODE:") with
      | [] => none
      | l :: _ => pyInt (pyStrip ((pySplit l ":").getLastD ""))
    else none
  let actual_return_code : Int := parsed.getD 0
  let actual_success : Bool :=
    match parsed with
    | some rc => rc = 0
    | none => true
  let execution_output :=
    if strContainsB stdout EXEC_START_MARK && strContainsB stdout EXEC_END_MARK then
      let start_idx := (strFind stdout EXEC_START_MARK).getD 0
      let end_idx := (strFind stdout EXEC_END_MARK).getD 0
      pyStrip (String.mk ((stdout.data.take end_idx).drop (start_idx + EXEC_START_MARK.data.length)))
    else stdout
  let files_created :=
    if strContainsB stdout FILES_CREATED_MARK then
      parse_file_list ((pySplit stdout FILES_CREATED_MARK).getLastD "")
    else []
  { success := actual_success, stdout := execution_output, stderr := result.stderr,
    return_code := actual_return_code, working_directory := working_dir,
    files_created := files_created, task_hash := some task_hash,
    error_message := if actual_success then none else some execution_output }

/-- Embeds `SandboxInstance.execute_code`. `task_id` is `self.task_id`; `hour`
is the hour bucket `int(time.time() // 3600)` used by `generate_task_hash`.
`gpu_env_vars` is modelled from the spec: `_is_gpu_environment` and
`get_gpu_env_vars` are called on the environment but are not present in the
repository's sources; `some gpu` stands for `get_gpu_env_vars()`'s result when
`_is_gpu_environment()` is true and `none` for a non-GPU environment.
Returns the `ExecutionResult` together with the list of remote commands
dispatched over the channel (in order). -/
def execute_code (ssm : Channel) (cfg : SandboxConfig) (task_id : String) (hour : Nat)
    (code : String) (runtime : String)
    (files : Option (List (String × String)))
    (env_vars : Option (List (String × String)))
    (create_filesystem : Bool)
    (gpu_env_vars : Option (List (String × String))) :
    ExecutionResult × List String :=
  let allowed := cfg.effective_allowed_runtimes
  if !allowed.contains runtime then (runtime_fail_result runtime allowed, [])
  else
    let task_hash := generate_task_hash code runtime task_id hour
    let fs : Except String String × List String :=
      if create_filesystem then create_task_filesystem ssm cfg task_hash files
      else (.ok "", [])
    match fs with
    | (.error e, fs_trace) => (exception_result e (some task_hash), fs_trace)
    | (.ok working_dir, fs_trace) =>
      let final_env_vars :=
        match gpu_env_vars with
        | some gpu => dict_merge gpu (env_vars.getD [])
        | none => env_vars.getD []
      match export_commands final_env_vars with
      | .error e => (exception_result e (some task_hash), fs_trace)
      | .ok exports =>
        let exec_commands := exports ++ ulimit_commands cfg ++
          runtime_commands cfg task_hash code runtime ++
          ["echo '--- FILES_CREATED ---'", "ls -la"]
        let full_command := strJoin " && " exec_commands
        let sent :=
          if working_dir ≠ "" then "cd " ++ working_dir ++ " && " ++ full_command
          else full_command
        let result := execute_remote_command ssm full_command working_dir
        (parse_execution result working_dir task_hash, fs_trace ++ [sent])

/-! ## `strands_tools.py` and `ec2_sandbox/strands_tools.py` (tool layer) -/

/-- The 70 KiB safety cap on UTF-8 code bytes (`MAX_CODE_SIZE = 71680`). -/
def MAX_CODE_SIZE : Nat := 71680

/-- Fuel-based grouping of (reversed) digits into threes for `f"{n:,}"`. -/
def chunks3Fuel : Nat → List Char → List (List Char)
  | 0, _ => []
  | _, [] => []
  | fuel + 1, a :: t => (a :: t.take 2) :: chunks3Fuel fuel (t.drop 2)

/-- Python `f"{n:,}"` for a natural number: thousands separators. -/
def fmtThousands (n : Nat) : String :=
  let ds := (toString n).data
  let groups := (chunks3Fuel ds.length ds.reverse).map List.reverse
  String.mk (List.intercalate [','] groups.reverse)

/-- Python `f"{n/1024:.1f}"` for a natural `n < 2^53`: `n/1024` is exactly
representable as a double (an integer scaled by a power of two), and `%.1f`
rounds it to one decimal digit, ties to even. -/
def fmtKB1 (n : Nat) : String :=
  let t := n * 10
  let q := t / 1024
  let r := t % 1024
  let q := if r * 2 > 1024 then q + 1
           else if r * 2 < 1024 then q
           else if q % 2 = 0 then q else q + 1
  toString (q / 10) ++ "." ++ toString (q % 10)

/-- The `stderr` text of the oversize-code failure result (an f-string in the
source, reproduced verbatim). -/
def oversize_stderr (code_size : Nat) : String :=
  "代码过长 (" ++ fmtThousands code_size ++ " 字节 = " ++ fmtKB1 code_size ++
  "KB)，超过安全限制。\n\n" ++
  "📏 限制详情：\n" ++
  "• AWS SSM实际限制：~99KB（总命令大小）\n" ++
  "• 最大代码限制：~72KB（实测边界）\n" ++
  "• 安全代码限制：70KB（推荐使用）\n" ++
  "• 当前代码大小：" ++ fmtKB1 code_size ++ "KB\n\n" ++
  "🔧 代码优化建议：\n" ++
  "1. 移除不必要的注释、空行和调试代码\n" ++
  "2. 使用更简洁的变量名和函数名\n" ++
  "3. 将复杂逻辑拆分为多个简单函数\n" ++
  "4. 避免重复代码，使用循环和函数复用\n" ++
  "5. 移除不必要的导入和依赖\n" ++
  "6. 考虑将大任务分解为多个小步骤执行\n" ++
  "7. 将大量数据改用文件输入而非硬编码"

/-- The `error_message` of the oversize-code failure result. -/
def oversize_error_message (code_size : Nat) : String :=
  "Code too long: " ++ toString code_size ++ " bytes (" ++ fmtKB1 code_size ++
  "KB) exceeds " ++ toString MAX_CODE_SIZE ++ " bytes (70KB) safe limit"

/-- The synthesized `ExecutionResult` for oversize code (strands_tools.py,
module level; the session variant additionally sets `session_id=''`). -/
def oversize_result (code_size : Nat) (session_id : Option String) : ExecutionResult :=
  { success := false, stdout := "", stderr := oversize_stderr code_size,
    return_code := 1, working_directory := "", files_created := [],
    task_hash := none, error_message := some (oversize_error_message code_size),
    session_id := session_id }

/-- Embeds `execute_code_in_sandbox` from the module-level `strands_tools.py`:
check the UTF-8 byte length of the code against `MAX_CODE_SIZE` before doing
anything else (no remote command is dispatched on failure), then create a
sandbox instance (`task_id` defaulting to `task_<int(time.time())>`, modelled
by `now`) and delegate to `execute_code`. Returns the result and the dispatched
remote commands. -/
def execute_code_in_sandbox (ssm : Channel) (cfg : SandboxConfig) (now hour : Nat)
    (code : String) (runtime : String) (task_id : Option String)
    (files : Option (List (String × String)))
    (env_vars : Option (List (String × String)))
    (create_filesystem : Bool)
    (gpu_env_vars : Option (List (String × String))) :
    ExecutionResult × List String :=
  if (strBytes code).length > MAX_CODE_SIZE then
    (oversize_result (strBytes code).length none, [])
  else
    execute_code ssm cfg (task_id.getD ("task_" ++ toString now)) hour code runtime
      files env_vars create_filesystem gpu_env_vars

/-- Embeds `execute_code_in_sandbox` from `ec2_sandbox/strands_tools.py` (the
session-aware tool): size check first (with `session_id=''` in the failure
result), then run the instance with the environment's base directory swapped to
the session path, rewrite the working directory to
`<session_path>/<task_hash>`, bump the session's task counter
(`task_count` is the counter value before the call), and wrap the result with
the session information. -/
def execute_code_in_sandbox_session (ssm : Channel) (cfg : SandboxConfig)
    (session_id session_path : String) (task_count : Nat) (now hour : Nat)
    (code : String) (runtime : String) (task_id : Option String)
    (files : Option (List (String × String)))
    (env_vars : Option (List (String × String)))
    (create_filesystem : Bool)
    (gpu_env_vars : Option (List (String × String))) :
    ExecutionResult × List String :=
  if (strBytes code).length > MAX_CODE_SIZE then
    (oversize_result (strBytes code).length (some ""), [])
  else
    let rt := execute_code ssm { cfg with base_sandbox_dir := session_path }
      (task_id.getD ("task_" ++ toString now)) hour code runtime files env_vars
      create_filesystem gpu_env_vars
    let result :=
      if rt.1.working_directory ≠ "" then
        { rt.1 with working_directory :=
            session_path ++ "/" ++ (match rt.1.task_hash with
                                    | some h => h
                                    | none => "None") }
      else rt.1
    ({ success := result.success, stdout := result.stdout, stderr := result.stderr,
       return_code := result.return_code, task_hash := result.task_hash,
       error_message :=
         if !result.success then
           (if result.stderr ≠ "" then some result.stderr else some "执行失败")
         else none,
       working_directory := result.working_directory,
       files_created := result.files_created,
       session_id := some session_id,
       task_count := some (task_count + 1) }, rt.2)

/-- A Python value as serialized into a tool response's `data` dict. -/
inductive PyVal where
  | str (s : String)
  | nat (n : Nat)
  | dict (entries : List (String × PyVal))

/-- Embeds the `ToolResponse` dataclass from `ec2_sandbox/tool_response.py`. -/
structure ToolResponse where
  success : Bool
  session_id : Option String := none
  data : Option (List (String × PyVal)) := none
  message : Option String := none
  error_message : Option String := none

/-- `ToolResponse.create_success`. -/
def ToolResponse.create_success (data : Option (List (String × PyVal)))
    (message : Option String) (session_id : Option String) : ToolResponse :=
  { success := true, session_id := session_id, data := data, message := message }

/-- `ToolResponse.create_error`. -/
def ToolResponse.create_error (error_message : String) (session_id : Option String)
    (data : Option (List (String × PyVal))) : ToolResponse :=
  { success := false, session_id := session_id, error_message := some error_message,
    data := data }

/-- Python truthiness of an optional string argument (`if filename:`). -/
def pyTruthyOpt : Option String → Bool
  | some s => s ≠ ""
  | none => false

/-- Embeds `get_session_files` from `ec2_sandbox/strands_tools.py`, for an
initialized session context (`session_id`, `session_path`). With a truthy
`filename`, find the file (scoped to `task_hash`'s directory when that is
truthy) and return its content; otherwise enumerate every task directory under
the session path and return the full file map as a success response. -/
def get_session_files (ssm : Channel) (session_id session_path : String)
    (filename task_hash : Option String) : ToolResponse :=
  if pyTruthyOpt filename then
    let fn := filename.getD ""
    let find_command :=
      if pyTruthyOpt task_hash then
        "find " ++ session_path ++ "/" ++ task_hash.getD "" ++ " -name '" ++ fn ++
          "' -type f 2>/dev/null"
      else
        "find " ++ session_path ++ " -name '" ++ fn ++ "' -type f 2>/dev/null"
    let find_result := execute_remote_command ssm find_command
    if find_result.return_code = 0 ∧ pyStrip find_result.stdout ≠ "" then
      let file_path := (pySplit (pyStrip find_result.stdout) "\n").headD ""
      let read_result := execute_remote_command ssm ("cat '" ++ file_path ++ "'")
      if read_result.return_code = 0 then
        let task_dir := path_basename (path_dirname file_path)
        ToolResponse.create_success
          (some [("filename", PyVal.str fn), ("content", PyVal.str read_result.stdout),
                 ("found_in_task", PyVal.str task_dir), ("full_path", PyVal.str file_path)])
          (some ("成功获取文件: " ++ fn)) (some session_id)
      else
        ToolResponse.create_error ("无法读取文件: " ++ fn) (some session_id)
          (some [("file_path", PyVal.str file_path)])
    else
      ToolResponse.create_error ("文件未找到: " ++ fn) (some session_id)
        (some [("searched_in", PyVal.str session_path)])
  else
    let list_dirs_command := "find " ++ session_path ++ " -maxdepth 1 -type d ! -path " ++
      session_path ++ " 2>/dev/null"
    let dirs_result := execute_remote_command ssm list_dirs_command
    let all_files : List (String × PyVal) :=
      if dirs_result.return_code = 0 ∧ pyStrip dirs_result.stdout ≠ "" then
        (pySplit (pyStrip dirs_result.stdout) "\n").foldl (fun acc task_dir_path =>
          let task_name := path_basename task_dir_path
          let files_result := execute_remote_command ssm
            ("find " ++ task_dir_path ++ " -maxdepth 1 -type f 2>/dev/null")
          if files_result.return_code = 0 ∧ pyStrip files_result.stdout ≠ "" then
            let file_paths := pySplit (pyStrip files_result.stdout) "\n"
            let task_files := file_paths.foldl (fun tf file_path =>
              let file_name := path_basename file_path
              let read_result := execute_remote_command ssm ("cat '" ++ file_path ++ "'")
              if read_result.return_code = 0 then
                tf ++ [(file_name, PyVal.str read_result.stdout)]
              else
                tf ++ [(file_name, PyVal.str ("<读取失败: " ++ read_result.stderr ++ ">"))]) []
            if !task_files.isEmpty then acc ++ [(task_name, PyVal.dict task_files)] else acc
          else acc) []
      else []
    ToolResponse.create_success
      (some [("files", PyVal.dict all_files), ("total_tasks", PyVal.nat all_files.length)])
      (some ("成功获取 " ++ toString all_files.length ++ " 个任务的文件"))
      (some session_id)

/-! ## Amended-specification definitions and concrete fixtures -/

/-- The per-line rule that `parse_file_list` implements, named for comparison
with the specification's description: a line is kept when it starts with `-`
or with `d` (so directory entries are kept too), has at least nine
whitespace-separated fields, and its name (fields 9+) is neither `.` nor
`..`. -/
def ls_entry_name (line : String) : Option String :=
  if strStartsWith line "-" || strStartsWith line "d" then
    if (pySplitWs line).length ≥ 9 then
      if strJoin " " ((pySplitWs line).drop 8) ≠ "." ∧
         strJoin " " ((pySplitWs line).drop 8) ≠ ".." then
        some (strJoin " " ((pySplitWs line).drop 8))
      else none
    else none
  else none

/-- A concrete configuration with all defaulted fields. -/
def ex_cfg : SandboxConfig := { region := "us-west-2", instance_id := "i-0123456789abcdef0" }

/-- A channel on which every command completes with empty output and return
code 0. -/
def ok_channel : Channel := fun _ =>
  .ok { stdout := "", stderr := "", status := "Success", return_code := 0 }

/-- A channel that raises on every dispatch. -/
def err_channel : Channel := fun _ => .error "SSM ClientError: connection timed out"

/-- 71681 bytes of `#` padding. -/
def big_code : String := String.mk (List.replicate 71681 '#')

end EC2Sandbox

namespace EC2Sandbox

/-! ## Helper lemmas -/

theorem strMk_data (s : String) : String.mk s.data = s := rfl

theorem strData_append (a b : String) : (a ++ b).data = a.data ++ b.data := by
  cases a; cases b; rfl

theorem isPrefixOf_append_self (l t : List Char) : l.isPrefixOf (l ++ t) = true := by
  induction l with
  | nil => simp [List.isPrefixOf]
  | cons c l ih => simp [List.isPrefixOf, ih]

theorem isPrefixOf_append_left {l1 l2 : List Char} (t : List Char)
    (h : l1.isPrefixOf l2 = true) : l1.isPrefixOf (l2 ++ t) = true := by
  induction l1 generalizing l2 with
  | nil => simp [List.isPrefixOf]
  | cons a l1 ih =>
    cases l2 with
    | nil => simp [List.isPrefixOf] at h
    | cons b l2 =>
      simp only [List.isPrefixOf, Bool.and_eq_true] at h
      simpa [List.isPrefixOf, h.1] using ih h.2

theorem listContainsSub_of_isPrefixOf {x l : List Char} (h : x.isPrefixOf l = true) :
    listContainsSub x l = true := by
  cases l with
  | nil =>
    cases x with
    | nil => rfl
    | cons c t => simp [List.isPrefixOf] at h
  | cons c t => simp [listContainsSub, h]

theorem listContainsSub_self_left (x t : List Char) : listContainsSub x (x ++ t) = true :=
  listContainsSub_of_isPrefixOf (isPrefixOf_append_self x t)

theorem listContainsSub_append_right (s t x : List Char)
    (h : listContainsSub x t = true) : listContainsSub x (s ++ t) = true := by
  induction s with
  | nil => exact h
  | cons c s ih => simp [listContainsSub, ih]

/-- `sub` occurs in `a ++ sub ++ b`. -/
theorem strContainsB_sandwich (a sub b : String) :
    strContainsB (a ++ sub ++ b) sub = true := by
  unfold strContainsB
  rw [strData_append, strData_append, List.append_assoc]
  exact listContainsSub_append_right _ _ _ (listContainsSub_self_left _ _)

/-- Containment lifts from the right part of an append. -/
theorem strContainsB_append_right (a b sub : String)
    (h : strContainsB b sub = true) : strContainsB (a ++ b) sub = true := by
  unfold strContainsB at h ⊢
  rw [strData_append]
  exact listContainsSub_append_right _ _ _ h

/-- Containment of a prefix of a left part of an append. -/
theorem strContainsB_of_isPrefixOf (a b sub : String)
    (h : sub.data.isPrefixOf a.data = true) : strContainsB (a ++ b) sub = true := by
  unfold strContainsB
  rw [strData_append]
  exact listContainsSub_of_isPrefixOf (isPrefixOf_append_left _ h)

/-! ## C6: `is_safe_filename` -/

/-- C6 (counterexample): the claim says every string containing `..` is
rejected, but `is_safe_filename` accepts `..` itself (and `a..b`): the
dangerous patterns only match `..` followed by a slash or backslash. -/
theorem is_safe_filename_accepts_dotdot :
    strContainsB ".." ".." = true ∧ is_safe_filename ".." = true ∧
    strContainsB "a..b" ".." = true ∧ is_safe_filename "a..b" = true := by decide

/-- C6 (amended): `is_safe_filename` rejects every string containing `../` or
`..\`, every string longer than 255 characters, and every string not matching
`^[a-zA-Z0-9._-]+$`; but a bare `..` (and names like `a..b`) not followed by a
slash or backslash is accepted. -/
theorem is_safe_filename_amended_checks :
    (∀ s, strContainsB s "../" = true → is_safe_filename s = false) ∧
    (∀ s, strContainsB s "..\\" = true → is_safe_filename s = false) ∧
    (∀ s, s.data.length > 255 → is_safe_filename s = false) ∧
    (∀ s, matches_safe_name s = false → is_safe_filename s = false) ∧
    is_safe_filename ".." = true ∧ is_safe_filename "a..b" = true := by
  refine ⟨fun s h => ?_, fun s h => ?_, fun s h => ?_, fun s h => ?_, by decide, by decide⟩ <;>
    (unfold is_safe_filename; split_ifs <;> simp_all)

/-- Witness for `is_safe_filename_amended_checks`. -/
theorem is_safe_filename_amended_checks_witness :
    is_safe_filename "../etc" = false ∧
    is_safe_filename "..\\win" = false ∧
    is_safe_filename (String.mk (List.replicate 256 'a')) = false ∧
    is_safe_filename "a b" = false := by
  refine ⟨is_safe_filename_amended_checks.1 _ (by decide),
          is_safe_filename_amended_checks.2.1 _ (by decide),
          is_safe_filename_amended_checks.2.2.1 _ (by simp),
          is_safe_filename_amended_checks.2.2.2.1 _ (by decide)⟩

/-! ## C8: `sanitize_env_var` idempotence -/

theorem flatMap_escape_id {t : Char} :
    ∀ l : List Char, (∀ c ∈ l, c ≠ t) →
      l.flatMap (fun c => if c = t then ['\\', t] else [c]) = l := by
  intro l
  induction l with
  | nil => intro _; rfl
  | cons c l ih =>
    intro h
    simp only [List.flatMap_cons]
    rw [if_neg (h c (by simp)), ih (fun d hd => h d (by simp [hd]))]
    rfl

theorem py_replace_char_id {v : String} {t : Char} (h : ∀ c ∈ v.data, c ≠ t) :
    py_replace_char v t = v := by
  unfold py_replace_char
  rw [flatMap_escape_id v.data h]

theorem sanitize_value_id {v : String} (h : ∀ c ∈ v.data, ¬ c ∈ dangerous_value_chars) :
    sanitize_value v = v := by
  have hall : ∀ t, t ∈ dangerous_value_chars → ∀ c ∈ v.data, c ≠ t :=
    fun t ht c hc he => h c hc (he ▸ ht)
  unfold sanitize_value dangerous_value_chars
  simp only [List.foldl]
  rw [py_replace_char_id (hall '`' (by decide)), py_replace_char_id (hall '$' (by decide)),
      py_replace_char_id (hall '\\' (by decide)), py_replace_char_id (hall '"' (by decide)),
      py_replace_char_id (hall '\'' (by decide)), py_replace_char_id (hall ';' (by decide)),
      py_replace_char_id (hall '&' (by decide)), py_replace_char_id (hall '|' (by decide)),
      py_replace_char_id (hall '<' (by decide)), py_replace_char_id (hall '>' (by decide))]

/-- C8 (counterexample): sanitization is not idempotent. For the valid key `A`
and value `$`, the sanitized value is `\\$` (the `$` step inserts one
backslash, which the later `\` step doubles), and sanitizing that output again
yields six backslashes before the dollar — not a no-op. -/
theorem sanitize_env_var_not_idempotent :
    env_key_ok "A" = true ∧
    (sanitize_env_var "A" "$").toOption = some ("A", sanitize_value "$") ∧
    sanitize_value (sanitize_value "$") ≠ sanitize_value "$" := by decide

/-- C8 (amended): sanitization is idempotent exactly on clean values: for a
valid key and a value containing none of the dangerous characters,
`sanitize_env_var` returns the value unchanged and re-sanitizing its output is
a no-op. (On any value containing a dangerous character the output contains a
backslash — itself dangerous — so a second pass escapes again.) -/
theorem sanitize_env_var_idempotent_on_clean (k v : String)
    (hk : env_key_ok k = true)
    (hv : ∀ c ∈ v.data, ¬ c ∈ dangerous_value_chars) :
    sanitize_env_var k v = .ok (k, v) ∧
    sanitize_value (sanitize_value v) = sanitize_value v := by
  constructor
  · simp [sanitize_env_var, hk, sanitize_value_id hv]
  · rw [sanitize_value_id hv, sanitize_value_id hv]

/-- Witness for `sanitize_env_var_idempotent_on_clean`. -/
theorem sanitize_env_var_idempotent_on_clean_witness :
    sanitize_env_var "PATH" "/usr/bin:/bin" = .ok ("PATH", "/usr/bin:/bin") ∧
    sanitize_value (sanitize_value "/usr/bin:/bin") = sanitize_value "/usr/bin:/bin" :=
  sanitize_env_var_idempotent_on_clean "PATH" "/usr/bin:/bin" (by decide) (by decide)

/-! ## C9: `parse_file_list` -/

theorem ls_entry_step_eq (fs : List String) (line : String) :
    (if strStartsWith line "-" || strStartsWith line "d" then
       if (pySplitWs line).length ≥ 9 then
         if strJoin " " ((pySplitWs line).drop 8) ≠ "." ∧
            strJoin " " ((pySplitWs line).drop 8) ≠ ".." then
           fs ++ [strJoin " " ((pySplitWs line).drop 8)]
         else fs
       else fs
     else fs) =
    (match ls_entry_name line with
     | some nm => fs ++ [nm]
     | none => fs) := by
  unfold ls_entry_name
  split_ifs <;> rfl

theorem parse_fold_eq (lines : List String) :
    ∀ acc : List String,
      lines.foldl (fun files line =>
        if strStartsWith line "-" || strStartsWith line "d" then
          if (pySplitWs line).length ≥ 9 then
            if strJoin " " ((pySplitWs line).drop 8) ≠ "." ∧
               strJoin " " ((pySplitWs line).drop 8) ≠ ".." then
              files ++ [strJoin " " ((pySplitWs line).drop 8)]
            else files
          else files
        else files) acc = acc ++ lines.filterMap ls_entry_name := by
  induction lines with
  | nil => intro acc; simp
  | cons l ls ih =>
    intro acc
    rw [List.foldl_cons, ls_entry_step_eq acc l]
    cases h : ls_entry_name l with
    | none => simp only [h, ih, List.filterMap_cons]
    | some nm =>
      simp only [h, ih, List.filterMap_cons, List.append_assoc, List.singleton_append]

/-- C9 (counterexample): the claim says directory entries (permission string
starting with `d`) are excluded from `filesCreated`, but `parse_file_list`
keeps them: a directory row yields its name. -/
theorem parse_file_list_includes_directories :
    strStartsWith "drwxr-xr-x 2 user group 4096 Jan 1 00:00 mydir" "d" = true ∧
    parse_file_list "drwxr-xr-x 2 user group 4096 Jan 1 00:00 mydir" = ["mydir"] := by
  decide

/-- C9 (amended): `filesCreated` contains exactly the names parsed from the
`ls -la` block whose lines start with `-` **or `d`** (regular files and
directories alike) with at least nine fields, excluding only `.` and `..`;
directory names do appear. -/
theorem parse_file_list_keeps_d_lines :
    (∀ s, parse_file_list s = (pySplit (pyStrip s) "\n").filterMap ls_entry_name) ∧
    (∀ s nm, nm ∈ parse_file_list s → nm ≠ "." ∧ nm ≠ "..") := by
  have main : ∀ s, parse_file_list s = (pySplit (pyStrip s) "\n").filterMap ls_entry_name := by
    intro s
    unfold parse_file_list
    simpa using parse_fold_eq (pySplit (pyStrip s) "\n") []
  refine ⟨main, ?_⟩
  intro s nm hmem
  rw [main s] at hmem
  obtain ⟨line, _, hsome⟩ := List.mem_filterMap.1 hmem
  unfold ls_entry_name at hsome
  split_ifs at hsome
  simp_all

/-- Witness for `parse_file_list_keeps_d_lines`. -/
theorem parse_file_list_keeps_d_lines_witness :
    parse_file_list "-rw-r--r-- 1 u g 10 Jan 1 00:00 out.json" =
      (pySplit (pyStrip "-rw-r--r-- 1 u g 10 Jan 1 00:00 out.json") "\n").filterMap
        ls_entry_name ∧
    ("out.json" ≠ "." ∧ "out.json" ≠ "..") :=
  ⟨parse_file_list_keeps_d_lines.1 _,
   parse_file_list_keeps_d_lines.2 "-rw-r--r-- 1 u g 10 Jan 1 00:00 out.json"
     "out.json" (by decide)⟩

/-! ## C10: `cleanup_old_tasks` with `hours = 0` -/

/-- C10: passing `hours = 0` to the retention purge is treated as absent
(Python's `hours or self.config.cleanup_after_hours`): the dispatched `find`
command is identical to the no-argument call and uses the configured
`cleanup_after_hours`, so directories no older than that threshold survive the
sweep. -/
theorem cleanup_zero_hours_uses_config (cfg : SandboxConfig) (ssm : Channel)
    (dirs : List (String × Nat)) :
    cleanup_effective_hours cfg (some 0) = cfg.cleanup_after_hours ∧
    cleanup_old_tasks ssm cfg (some 0) = cleanup_old_tasks ssm cfg none ∧
    ∀ d ∈ dirs, d.2 ≤ cfg.cleanup_after_hours * 60 → d ∈ cleanup_sweep cfg (some 0) dirs := by
  refine ⟨rfl, rfl, ?_⟩
  intro d hd hage
  unfold cleanup_sweep find_sweep cleanup_effective_hours
  rw [List.mem_filter]
  refine ⟨hd, ?_⟩
  simp only [Bool.not_eq_true', decide_eq_false_iff_not, not_lt]
  simpa using hage

/-- Witness for `cleanup_zero_hours_uses_config`. -/
theorem cleanup_zero_hours_uses_config_witness :
    cleanup_effective_hours ex_cfg (some 0) = ex_cfg.cleanup_after_hours ∧
    cleanup_old_tasks ok_channel ex_cfg (some 0) = cleanup_old_tasks ok_channel ex_cfg none ∧
    ("a1b2c3d4e5f6a7b8", 100) ∈ cleanup_sweep ex_cfg (some 0) [("a1b2c3d4e5f6a7b8", 100)] :=
  ⟨(cleanup_zero_hours_uses_config ex_cfg ok_channel []).1,
   (cleanup_zero_hours_uses_config ex_cfg ok_channel []).2.1,
   (cleanup_zero_hours_uses_config ex_cfg ok_channel [("a1b2c3d4e5f6a7b8", 100)]).2.2
     ("a1b2c3d4e5f6a7b8", 100) (by decide) (by decide)⟩

/-! ## C7: `get_session_files` with neither argument -/

/-- C7 (counterexample): called with neither `filename` nor `task_hash`,
`get_session_files` does not return an error envelope telling the caller to
use the listing tool — it returns a success envelope carrying the (here empty)
file map of the session. -/
theorem get_session_files_no_args_not_error :
    (get_session_files ok_channel "sid_1" "/opt/sandbox/sid_1" none none).success = true ∧
    (get_session_files ok_channel "sid_1" "/opt/sandbox/sid_1" none none).error_message
      = none ∧
    (get_session_files ok_channel "sid_1" "/opt/sandbox/sid_1" none none).message =
      some "成功获取 0 个任务的文件" := by decide

/-- C7 (amended): with neither argument, `get_session_files` always returns a
success envelope (success = true, no error message) whose data is the file map
of every task directory under the session path, whatever the channel
returns. -/
theorem get_session_files_no_args_lists (ssm : Channel) (sid spath : String) :
    (get_session_files ssm sid spath none none).success = true ∧
    (get_session_files ssm sid spath none none).error_message = none := by
  unfold get_session_files
  simp [pyTruthyOpt, ToolResponse.create_success]

/-! ## C4: the 70 KiB size gate of `execute_code_in_sandbox` -/

theorem strData_mk (l : List Char) : (String.mk l).data = l := rfl

theorem strBytes_replicate_ascii (n : Nat) (c : Char) (h : c.toNat < 128) :
    (strBytes (String.mk (List.replicate n c))).length = n := by
  have hf : utf8EncodeCodePoint c.toNat = [c.toNat] := by
    unfold utf8EncodeCodePoint
    rw [if_pos h]
  induction n with
  | zero => rfl
  | succ n ih =>
    unfold strBytes at ih ⊢
    rw [strData_mk] at ih ⊢
    rw [List.replicate_succ, List.flatMap_cons, List.length_append, hf, ih]
    simp [Nat.add_comm]

/-- C4: requests whose code exceeds 71680 UTF-8 bytes are rejected before any
remote dispatch, with `success = false`, `return_code = 1` and an error message
naming the byte size and the `70KB` limit; requests of at most 71680 bytes
pass the size check unchanged (so exactly 71680 bytes is accepted and 71681 is
rejected). -/
theorem execute_code_in_sandbox_size_gate
    (ssm : Channel) (cfg : SandboxConfig) (now hour : Nat)
    (code runtime : String) (task_id : Option String)
    (files env_vars gpu : Option (List (String × String))) (cf : Bool) :
    ((strBytes code).length > MAX_CODE_SIZE →
      execute_code_in_sandbox ssm cfg now hour code runtime task_id files env_vars cf gpu =
        (oversize_result (strBytes code).length none, []) ∧
      (oversize_result (strBytes code).length none).success = false ∧
      (oversize_result (strBytes code).length none).return_code = 1 ∧
      (oversize_result (strBytes code).length none).error_message =
        some (oversize_error_message (strBytes code).length) ∧
      strContainsB (oversize_error_message (strBytes code).length)
        (toString (strBytes code).length) = true ∧
      strContainsB (oversize_error_message (strBytes code).length) "70KB" = true) ∧
    ((strBytes code).length ≤ MAX_CODE_SIZE →
      execute_code_in_sandbox ssm cfg now hour code runtime task_id files env_vars cf gpu =
        execute_code ssm cfg (task_id.getD ("task_" ++ toString now)) hour code runtime
          files env_vars cf gpu) := by
  constructor
  · intro h
    refine ⟨?_, rfl, rfl, rfl, ?_, ?_⟩
    · unfold execute_code_in_sandbox
      rw [if_pos h]
    · unfold oversize_error_message strContainsB
      simp only [strData_append, List.append_assoc]
      exact listContainsSub_append_right _ _ _ (listContainsSub_self_left _ _)
    · unfold oversize_error_message
      exact strContainsB_append_right _ _ _ (by decide)
  · intro h
    unfold execute_code_in_sandbox
    rw [if_neg (by omega)]

/-- Witness for `execute_code_in_sandbox_size_gate`: 71681 bytes of `#` are
rejected with no dispatched command; a one-byte code passes the size check. -/
theorem execute_code_in_sandbox_size_gate_witness :
    (strBytes big_code).length = 71681 ∧
    execute_code_in_sandbox ok_channel ex_cfg 1000 488210 big_code "python3" none none
        none true none =
      (oversize_result (strBytes big_code).length none, []) ∧
    execute_code_in_sandbox ok_channel ex_cfg 1000 488210 "x" "python" none none
        none false none =
      execute_code ok_channel ex_cfg ((none : Option String).getD
        ("task_" ++ toString 1000)) 488210 "x" "python" none none false none := by
  have hlen : (strBytes big_code).length = 71681 :=
    strBytes_replicate_ascii 71681 '#' (by decide)
  have hbig : (strBytes big_code).length > MAX_CODE_SIZE := by
    rw [hlen]; decide
  refine ⟨hlen, ?_, ?_⟩
  · exact ((execute_code_in_sandbox_size_gate ok_channel ex_cfg 1000 488210 big_code
      "python3" none none none none true).1 hbig).1
  · exact (execute_code_in_sandbox_size_gate ok_channel ex_cfg 1000 488210 "x"
      "python" none none none none false).2 (by decide)

/-! ## C2: channel exceptions -/

/-- C2 (amended): when the management channel raises during dispatch, the shell
adapter does return `{'', str(e), Failed, 1}` without raising; but the
`ExecutionResult` that `execute_code` builds from that dict on the execution
command has `success = true` and `returnCode = 0`, because the empty stdout
carries no `EXIT_CODE:` marker and the channel-level return code is ignored by
the parser. -/
theorem channel_error_adapter_and_result (ssm : Channel) (cfg : SandboxConfig)
    (tid : String) (hour : Nat) (code runtime msg : String)
    (hch : ∀ c, ssm c = .error msg)
    (hrt : cfg.effective_allowed_runtimes.contains runtime = true) :
    (∀ cmd wd, execute_remote_command ssm cmd wd =
      { stdout := "", stderr := msg, status := "Failed", return_code := 1 }) ∧
    (execute_code ssm cfg tid hour code runtime none none false none).1 =
      { success := true, stdout := "", stderr := msg, return_code := 0,
        working_directory := "", files_created := [],
        task_hash := some (generate_task_hash code runtime tid hour),
        error_message := none } := by
  have hrc : ∀ cmd wd, execute_remote_command ssm cmd wd =
      { stdout := "", stderr := msg, status := "Failed", return_code := 1 } := by
    intro cmd wd
    simp [execute_remote_command, hch]
  refine ⟨hrc, ?_⟩
  have hmem : runtime ∈ cfg.effective_allowed_runtimes := by simpa using hrt
  have h1 : strContainsB "" "EXIT_CODE:" = false := rfl
  have h2 : strContainsB "" EXEC_START_MARK = false := rfl
  have h3 : strContainsB "" FILES_CREATED_MARK = false := rfl
  simp [execute_code, hmem, hrc, parse_execution, export_commands, h1, h2, h3]

/-- Witness for `channel_error_adapter_and_result`. -/
theorem channel_error_adapter_and_result_witness :
    execute_remote_command err_channel "echo hi" "/tmp" =
      { stdout := "", stderr := "SSM ClientError: connection timed out",
        status := "Failed", return_code := 1 } ∧
    (execute_code err_channel ex_cfg "t1" 1 "x" "python" none none false none).1 =
      { success := true, stdout := "",
        stderr := "SSM ClientError: connection timed out", return_code := 0,
        working_directory := "", files_created := [],
        task_hash := some (generate_task_hash "x" "python" "t1" 1),
        error_message := none } := by
  have h := channel_error_adapter_and_result err_channel ex_cfg "t1" 1 "x" "python"
    "SSM ClientError: connection timed out" (fun _ => rfl) (by decide)
  exact ⟨h.1 "echo hi" "/tmp", h.2⟩

/-- C2 (counterexample): on a channel that raises during the execution
command's dispatch, the claim requires `returnCode = 1` and `success = false`,
but the produced `ExecutionResult` has `success = true` and `returnCode = 0`
(the adapter's `{'', msg, Failed, 1}` dict is parsed from its empty stdout). -/
theorem channel_error_reported_as_success :
    execute_remote_command err_channel "ls" "" =
      { stdout := "", stderr := "SSM ClientError: connection timed out",
        status := "Failed", return_code := 1 } ∧
    (execute_code err_channel ex_cfg "task_1" 488210 "print(2+2)" "python"
        none none false none).1.success = true ∧
    (execute_code err_channel ex_cfg "task_1" 488210 "print(2+2)" "python"
        none none false none).1.return_code = 0 := by decide

/-! ## C5: unsafe filenames block every dispatch -/

theorem build_file_commands_unsafe :
    ∀ fs : List (String × String), fs.any (fun p => !is_safe_filename p.1) = true →
      ∃ nm, build_file_commands fs = .error ("Unsafe filename: " ++ nm) := by
  intro fs
  induction fs with
  | nil => intro h; simp at h
  | cons p rest ih =>
    obtain ⟨name, content⟩ := p
    intro h
    by_cases hs : is_safe_filename name = true
    · have htail : rest.any (fun p => !is_safe_filename p.1) = true := by
        simpa [List.any_cons, hs] using h
      obtain ⟨nm, hnm⟩ := ih htail
      refine ⟨nm, ?_⟩
      unfold build_file_commands
      rw [if_pos hs, hnm]
    · refine ⟨name, ?_⟩
      unfold build_file_commands
      rw [if_neg hs]

/-- C5: a request (with an allowed runtime and `createFilesystem = true`) whose
`files` map contains an unsafe filename fails with an `Unsafe filename` error
message, and no remote command at all is dispatched — neither the provisioning
command nor the execution command. -/
theorem unsafe_filename_no_dispatch (ssm : Channel) (cfg : SandboxConfig)
    (tid : String) (hour : Nat) (code runtime : String)
    (fs : List (String × String)) (env gpu : Option (List (String × String)))
    (hrt : cfg.effective_allowed_runtimes.contains runtime = true)
    (hbad : fs.any (fun p => !is_safe_filename p.1) = true) :
    (execute_code ssm cfg tid hour code runtime (some fs) env true gpu).1.success
      = false ∧
    strContainsB (((execute_code ssm cfg tid hour code runtime (some fs) env true
      gpu).1.error_message).getD "") "Unsafe filename" = true ∧
    (execute_code ssm cfg tid hour code runtime (some fs) env true gpu).2 = [] := by
  obtain ⟨nm, hnm⟩ := build_file_commands_unsafe fs hbad
  have hmem : runtime ∈ cfg.effective_allowed_runtimes := by simpa using hrt
  have hfs : ∀ h, create_task_filesystem ssm cfg h (some fs) =
      (.error ("Unsafe filename: " ++ nm), []) := by
    intro h
    simp [create_task_filesystem, hnm]
  refine ⟨?_, ?_, ?_⟩
  · simp [execute_code, hmem, hfs, exception_result]
  · simp [execute_code, hmem, hfs, exception_result]
    exact strContainsB_of_isPrefixOf _ nm _ (by decide)
  · simp [execute_code, hmem, hfs]

/-! ## C3: the task fingerprint -/

/-- Every path of `execute_code` past the runtime check returns
`task_hash = some (generate_task_hash code runtime task_id hour)`: the third
hashed field is the instance's `task_id`, under the JSON key `session_id`. -/
theorem execute_code_task_hash (ssm : Channel) (cfg : SandboxConfig) (tid : String)
    (hour : Nat) (code runtime : String)
    (files env gpu : Option (List (String × String))) (cf : Bool)
    (hrt : cfg.effective_allowed_runtimes.contains runtime = true) :
    (execute_code ssm cfg tid hour code runtime files env cf gpu).1.task_hash =
      some (generate_task_hash code runtime tid hour) := by
  unfold execute_code
  simp only [hrt, Bool.not_true, Bool.false_eq_true, if_false]
  split
  · rfl
  · split
    · rfl
    · rfl

/-- C3 (counterexample): the task hash is not the fingerprint of the caller's
session identifier. A session-tool call (session `sid_1700000000_ab12cd34`,
no `task_id`, at `time.time() = 1700000000`) hashes the auto-generated task id
`task_1700000000`, not the session id; and two auto-generated task ids from
different seconds yield different hashes even within one hour bucket. -/
theorem session_hash_not_session_fingerprint :
    (execute_code_in_sandbox_session ok_channel ex_cfg "sid_1700000000_ab12cd34"
        "/opt/sandbox/sid_1700000000_ab12cd34" 0 1700000000 472222 "print(2+2)" "python"
        none none none true none).1.task_hash =
      some (generate_task_hash "print(2+2)" "python" "task_1700000000" 472222) ∧
    generate_task_hash "print(2+2)" "python" "task_1700000000" 472222 ≠
      generate_task_hash "print(2+2)" "python" "sid_1700000000_ab12cd34" 472222 ∧
    generate_task_hash "print(2+2)" "python" "task_1700000000" 472222 ≠
      generate_task_hash "print(2+2)" "python" "task_1700000001" 472222 := by decide

/-- C3 (amended): the `taskHash` returned by the session tool equals
`generate_task_hash` — the 16-hex-character truncation of SHA-256 over the
canonical sorted-key JSON `(code, runtime, session_id, timestamp)` — applied to
the **task id** (the caller-supplied `task_id`, or `task_<unixTime>` when
omitted) in the `session_id` field and the hour bucket; consequently two calls
in the same hour with identical code, runtime and explicit `task_id` yield
identical hashes, whatever second they run at. -/
theorem session_tool_task_hash (ssm : Channel) (cfg : SandboxConfig)
    (sid spath : String) (tc now hour : Nat) (code runtime : String)
    (task_id : Option String) (files env gpu : Option (List (String × String)))
    (cf : Bool)
    (hsize : (strBytes code).length ≤ MAX_CODE_SIZE)
    (hrt : cfg.effective_allowed_runtimes.contains runtime = true) :
    (execute_code_in_sandbox_session ssm cfg sid spath tc now hour code runtime task_id
        files env cf gpu).1.task_hash =
      some (generate_task_hash code runtime (task_id.getD ("task_" ++ toString now))
        hour) ∧
    generate_task_hash code runtime (task_id.getD ("task_" ++ toString now)) hour =
      strTake (sha256Hex (strBytes (task_hash_string code runtime
        (task_id.getD ("task_" ++ toString now)) hour))) 16 ∧
    (∀ (t : String) (now2 : Nat),
      (execute_code_in_sandbox_session ssm cfg sid spath tc now hour code runtime
          (some t) files env cf gpu).1.task_hash =
        (execute_code_in_sandbox_session ssm cfg sid spath tc now2 hour code runtime
          (some t) files env cf gpu).1.task_hash) := by
  have hrt2 : ({ cfg with base_sandbox_dir := spath } :
      SandboxConfig).effective_allowed_runtimes.contains runtime = true := hrt
  have key : ∀ (tid? : Option String) (now' : Nat),
      (execute_code_in_sandbox_session ssm cfg sid spath tc now' hour code runtime tid?
          files env cf gpu).1.task_hash =
        some (generate_task_hash code runtime (tid?.getD ("task_" ++ toString now'))
          hour) := by
    intro tid? now'
    have hkey := execute_code_task_hash ssm { cfg with base_sandbox_dir := spath }
      (tid?.getD ("task_" ++ toString now')) hour code runtime files env gpu cf hrt2
    unfold execute_code_in_sandbox_session
    rw [if_neg (by omega)]
    dsimp only []
    split
    · exact hkey
    · exact hkey
  refine ⟨key task_id now, rfl, fun t now2 => ?_⟩
  rw [key (some t) now, key (some t) now2]
  rfl

/-- Witness for `session_tool_task_hash`. -/
theorem session_tool_task_hash_witness :
    (execute_code_in_sandbox_session ok_channel ex_cfg "sid_1" "/opt/sandbox/sid_1" 0
        1700000000 472222 "print(2+2)" "python" none none none true none).1.task_hash =
      some (generate_task_hash "print(2+2)" "python"
        ((none : Option String).getD ("task_" ++ toString 1700000000)) 472222) :=
  (session_tool_task_hash ok_channel ex_cfg "sid_1" "/opt/sandbox/sid_1" 0 1700000000
    472222 "print(2+2)" "python" none none none none true (by decide) (by decide)).1

/-! ## C1: which runtimes actually execute the code -/

theorem runtime_commands_python3 (cfg : SandboxConfig) (hash code : String) :
    runtime_commands cfg hash code "python3" = [] := rfl

/-- C1 (code bug): `python3` is in the default allow-list and passes
validation, yet matches none of `execute_code`'s runtime branches: its command
list contains no code write and no interpreter invocation, so the dispatched
remote command does not even depend on the submitted code. For `python` the
branch does write the code via `base64 -d` and run it under `timeout` as the
spec describes. -/
theorem python3_code_never_executed :
    (∀ cfg hash code, runtime_commands cfg hash code "python3" = []) ∧
    (∀ (ssm : Channel) (cfg : SandboxConfig) (tid : String) (hour : Nat)
       (code code' : String),
      (execute_code ssm cfg tid hour code "python3" none none false none).2 =
        (execute_code ssm cfg tid hour code' "python3" none none false none).2) ∧
    ex_cfg.effective_allowed_runtimes.contains "python3" = true ∧
    (∀ cfg hash code,
      ("echo '" ++ base64Encode (strBytes code) ++ "' | base64 -d > " ++
        ("task_" ++ hash ++ ".py")) ∈ runtime_commands cfg hash code "python" ∧
      ("timeout " ++ toString cfg.max_execution_time ++ " " ++ "python" ++ " " ++
        ("task_" ++ hash ++ ".py") ++ "; exit_code=$?") ∈
        runtime_commands cfg hash code "python") := by
  refine ⟨fun _ _ _ => rfl, ?_, by decide, ?_⟩
  · intro ssm cfg tid hour code code'
    by_cases hc : "python3" ∈ cfg.effective_allowed_runtimes
    · simp [execute_code, hc, runtime_commands_python3, export_commands]
    · simp [execute_code, hc]
  · intro cfg hash code
    constructor <;> simp [runtime_commands]

/-- Witness for `unsafe_filename_no_dispatch`: the classic `../escape` seed
file. -/
theorem unsafe_filename_no_dispatch_witness :
    (execute_code ok_channel ex_cfg "t1" 1 "x" "python" (some [("../escape", "x")])
        none true none).1.success = false ∧
    strContainsB (((execute_code ok_channel ex_cfg "t1" 1 "x" "python"
        (some [("../escape", "x")]) none true none).1.error_message).getD "")
      "Unsafe filename" = true ∧
    (execute_code ok_channel ex_cfg "t1" 1 "x" "python" (some [("../escape", "x")])
        none true none).2 = [] :=
  unsafe_filename_no_dispatch ok_channel ex_cfg "t1" 1 "x" "python"
    [("../escape", "x")] none none (by decide) (by decide)

end EC2Sandbox
